import Mathlib

/-!
Shallow embedding of `src/lol.js`, a Helios-testnet automation bot, together
with theorems settling the specification claims.

The script is a thin sequencing layer over the viem chain client.  We embed:
  - the task functions (`task_deployContract`, `task_createToken`,
    `task_mintNft`, `task_claimAndBurn`, `sendSubtask`, `task_swapTokens`,
    `task_createMintpadNFT`) as functions of an abstract chain client,
    returning the ordered trace of client invocations and log lines together
    with a normal-return / raised-error result;
  - the two sub-scheduler loops (`runMainTasks`, `runTokenDeploy`) as trace
    producers parameterised by an arbitrary assignment of task outcomes
    (normal return or thrown error), mirroring the for-loops and the
    try/catch of the source;
  - the master daily loop (`scheduleDailyRuns`) as a step machine, and its
    date arithmetic (`new Date(t)`, `setDate(getDate() + 1)`, `getTime`,
    `Date.now`, `setTimeout`) following ECMAScript / WHATWG semantics, with
    the host time-zone conversion kept as an explicit parameter.

Nondeterministic inputs of the source (Math.random draws, Date.now readings,
crypto.randomBytes output, the account address derived from the private key)
are explicit parameters of the corresponding definitions.
-/

/-! ## Fee and schedule configuration (source lines 20-39) -/

/-- MAIN_RUNS_PER_SESSION from the source: the main task list runs 10 times
per session. -/
def MAIN_RUNS_PER_SESSION : Nat := 10

/-- MAIN_RUN_INTERVAL_MS = (1 h * 60 + 5 min) * 60 * 1000. -/
def MAIN_RUN_INTERVAL_MS : Nat := (1 * 60 + 5) * 60 * 1000

/-- TOKEN_RUNS_PER_SESSION from the source: the token-deploy task runs 3
times per session. -/
def TOKEN_RUNS_PER_SESSION : Nat := 3

/-- TOKEN_RUN_INTERVAL_MS = (1 h * 60 + 5 min) * 60 * 1000. -/
def TOKEN_RUN_INTERVAL_MS : Nat := (1 * 60 + 5) * 60 * 1000

/-- DELAY_BETWEEN_TASKS_MS: 10-second pause between individual tasks. -/
def DELAY_BETWEEN_TASKS_MS : Nat := 10000

/-- HIGH_GAS_PRICE = 200_000_000_000n wei (200 Gwei), the fixed elevated gas
price of the source. -/
def HIGH_GAS_PRICE : Nat := 200000000000

/-- The viem helper `parseUnits(value, decimals)` scales a decimal amount by
`10 ^ decimals`.  The source only applies it to the integer literals written
as the strings "1" and "1000000"; we take the parsed integer directly. -/
def parseUnits (value : Nat) (decimals : Nat) : Nat := value * 10 ^ decimals

/-- The viem constant `maxUint256` = 2 ^ 256 - 1. -/
def maxUint256 : Nat := 2 ^ 256 - 1

/-! ## Chain-client interface

The wrapped client exposes sendTransaction, writeContract, deployContract,
readContract and waitForTransactionReceipt.  Each request below carries the
fields the source actually places in the corresponding JS object literal; a
gas price key that the source leaves absent is modelled as `none`. -/

/-- Receipt status as reported by the chain client. -/
inductive TxStatus
  | success
  | reverted
deriving DecidableEq, Repr

/-- Transaction receipt record (the fields the script reads). -/
structure Receipt where
  status : TxStatus
  blockNumber : Nat
  contractAddress : String
deriving DecidableEq, Repr

/-- Argument of a contract call, as placed in the `args` array. -/
inductive AbiArg
  | str (v : String)
  | num (v : Nat)
  | addr (v : String)
  | swapTuple (tokenIn tokenOut : String) (fee : Nat) (recipient : String)
      (deadline amountIn amountOutMinimum sqrtPriceLimitX96 : Nat)
deriving DecidableEq, Repr

/-- Parameters of `wallet.sendTransaction({ to, data, gasPrice })`; the JS
key `to` is spelled `toAddr` because `to` is reserved here. -/
structure SendTxParams where
  toAddr : String
  data : String
  gasPrice : Option Nat
deriving DecidableEq, Repr

/-- Parameters of `wallet.writeContract({ address, functionName, args,
gasPrice })` (the abi value is static data and is omitted). -/
structure WriteParams where
  address : String
  functionName : String
  args : List AbiArg
  gasPrice : Option Nat
deriving DecidableEq, Repr

/-- Parameters of `wallet.deployContract({ abi, bytecode, args, gasPrice })`
(the abi value is static data and is omitted). -/
structure DeployParams where
  bytecode : String
  args : List AbiArg
  gasPrice : Option Nat
deriving DecidableEq, Repr

/-- Parameters of `publicClient.readContract({ address, abi, functionName,
args })`.  The source object literal has no gasPrice key, so the field is
`none` at the single call site. -/
structure ReadParams where
  address : String
  functionName : String
  args : List AbiArg
  gasPrice : Option Nat
deriving DecidableEq, Repr

/-- Parameters of `publicClient.waitForTransactionReceipt({ hash })`: the
object literal holds only the hash, so there is no gas price key at all. -/
structure ReceiptParams where
  hash : String
deriving DecidableEq, Repr

/-- Observable event of a task: a client invocation with its request, a
console log line, or a `setTimeout` pause. -/
inductive Ev
  | send (p : SendTxParams)
  | write (p : WriteParams)
  | deploy (p : DeployParams)
  | read (p : ReadParams)
  | waitReceipt (p : ReceiptParams)
  | log (msg : String)
  | sleep (ms : Nat)
deriving DecidableEq, Repr

/-- Abstract chain client: each operation may return a value or throw a
network/client exception (modelled as `Except.error`).  `readContract` is
only consumed at the uint256 `allowance` read, hence the `Nat` result. -/
structure Client where
  sendTransaction : SendTxParams → Except String String
  writeContract : WriteParams → Except String String
  deployContract : DeployParams → Except String String
  readContract : ReadParams → Except String Nat
  waitForTransactionReceipt : ReceiptParams → Except String Receipt

/-- Execution of a task body: the ordered trace of events it produced, and
either a normal return or a propagated client exception.  A client
exception aborts the rest of the body (as an awaited rejection does), but
the events already produced remain in the trace. -/
def TaskM (α : Type) : Type := List Ev × Except String α

/-- Lift a pure value into `TaskM`. -/
def TaskM.pure {α : Type} (a : α) : TaskM α := ([], Except.ok a)

/-- Sequencing of task steps: on an error the continuation never runs. -/
def TaskM.bind {α β : Type} (m : TaskM α) (f : α → TaskM β) : TaskM β :=
  match m with
  | (evs, Except.error e) => (evs, Except.error e)
  | (evs, Except.ok a) => (evs ++ (f a).1, (f a).2)

instance : Monad TaskM where
  pure := TaskM.pure
  bind := TaskM.bind

/-- Record a non-client event (console.log or setTimeout). -/
def emit (e : Ev) : TaskM Unit := ([e], Except.ok ())

/-- Invoke `wallet.sendTransaction`. -/
def Client.callSend (c : Client) (p : SendTxParams) : TaskM String :=
  ([Ev.send p], c.sendTransaction p)

/-- Invoke `wallet.writeContract`. -/
def Client.callWrite (c : Client) (p : WriteParams) : TaskM String :=
  ([Ev.write p], c.writeContract p)

/-- Invoke `wallet.deployContract`. -/
def Client.callDeploy (c : Client) (p : DeployParams) : TaskM String :=
  ([Ev.deploy p], c.deployContract p)

/-- Invoke `publicClient.readContract`. -/
def Client.callRead (c : Client) (p : ReadParams) : TaskM Nat :=
  ([Ev.read p], c.readContract p)

/-- Invoke `publicClient.waitForTransactionReceipt`. -/
def Client.callWait (c : Client) (p : ReceiptParams) : TaskM Receipt :=
  ([Ev.waitReceipt p], c.waitForTransactionReceipt p)

/-! ## Task functions (source lines 47-245) -/

/-- Counter-contract bytecode of TASK 1. -/
def counterBytecode : String := "0x608060405234801561001057600080fd5b50610100806100206000396000f3fe6080604052348015600f57600080fd5b506004361060325760003560e01c806360fe47b11460375780638381f58a146059575b600080fd5b605760048036038101906053565b6076565b005b605f607e565b604051606c9190608d565b60405180910390f35b60008054905090565b60005481565b600080546001019055565b608791905b80821115609d576000818152602081019051609392919160010160a3565b505050565b60006020828403121560b457600080fd5b503591905056fea2646970667358221220a2e51921201a9160358e2d46e279a1f7344b5fb227f722955f240214a1c09b3064736f6c63430008090033"

/-- TASK 1: deploy the Counter contract, then wait for the receipt; a
success status and a failed status are both only logged. -/
def task_deployContract (c : Client) : TaskM Unit := do
  emit (Ev.log "--- TASK 1: Deploying a new Smart Contract ---")
  let hash ← c.callDeploy
    { bytecode := counterBytecode, args := [], gasPrice := some HIGH_GAS_PRICE }
  emit (Ev.log ("Deploy Tx Hash: " ++ hash))
  let receipt ← c.callWait { hash := hash }
  if receipt.status = TxStatus.success then
    emit (Ev.log ("Contract Deployed! Address: " ++ receipt.contractAddress))
  else
    emit (Ev.log "Contract deployment failed.")

/-- Precompile address used by TASK 2. -/
def TOKEN_DEPLOYER_ADDRESS : String := "0x0000000000000000000000000000000000000806"

/-- TASK 2: create a random ERC20 token via the token-deployer precompile.
The two `Math.floor(Math.random() * _)` draws and the `Date.now()` reading
are the parameters `r1`, `r2` and `nowMs`. -/
def task_createToken (c : Client) (r1 r2 nowMs : Nat) : TaskM Unit := do
  emit (Ev.log "--- TASK 2: Creating a new ERC20 Token ---")
  let name := "AutoToken" ++ toString r1
  let symbol := "ATK" ++ toString r2
  let denom := "a" ++ symbol.toLower ++ "-" ++ toString nowMs
  let totalSupply := parseUnits 1000000 18
  let hash ← c.callWrite
    { address := TOKEN_DEPLOYER_ADDRESS, functionName := "createErc20",
      args := [AbiArg.str name, AbiArg.str symbol, AbiArg.str denom,
        AbiArg.num totalSupply, AbiArg.num 18, AbiArg.str ""],
      gasPrice := some HIGH_GAS_PRICE }
  emit (Ev.log ("Tx Hash: " ++ hash))
  let receipt ← c.callWait { hash := hash }
  if receipt.status = TxStatus.success then
    emit (Ev.log "Token Created!")
  else
    emit (Ev.log "Token creation failed.")

/-- NFT contract address of TASK 3. -/
def NFT_CONTRACT_ADDRESS : String := "0x9b0C569E2F63CEC5066f9f13C78bA0C6777322aa"

/-- Hardcoded mint calldata of TASK 3. -/
def NFT_MINT_DATA : String := "0x57bc3d7800000000000000000000000081860e8fec3115e6809be409cf5059a91b7be83e00000000000000000000000000000000000000000000000000000000000000000000000000000000000000000000000000000000000000000000000000000001000000000000000000000000eeeeeeeeeeeeeeeeeeeeeeeeeeeeeeeeeeeeeeee000000000000000000000000000000000000000000000000000000000000000000000000000000000000000000000000000000000000000000000000000000e0000000000000000000000000000000000000000000000000000000000000018000000000000000000000000000000000000000000000000000000000000000800000000000000000000000000000000000000000000000000000000000000000ffffffffffffffffffffffffffffffffffffffffffffffffffffffffffffffff000000000000000000000000000000000000000000000000000000000000000000000000000000000000000000000000000000000000000000000000000000000000000000000000000000000000000000000000000000000000000000000000"

/-- TASK 3: mint an NFT by sending the hardcoded calldata. -/
def task_mintNft (c : Client) : TaskM Unit := do
  emit (Ev.log "--- TASK 3: Minting an NFT ---")
  let hash ← c.callSend
    { toAddr := NFT_CONTRACT_ADDRESS, data := NFT_MINT_DATA,
      gasPrice := some HIGH_GAS_PRICE }
  emit (Ev.log ("Tx Hash: " ++ hash))
  let receipt ← c.callWait { hash := hash }
  if receipt.status = TxStatus.success then
    emit (Ev.log "NFT Minted!")
  else
    emit (Ev.log "NFT mint failed.")

/-- Helper for the claim/burn subtasks: send raw calldata, wait for the
receipt, and log the receipt status (a failed receipt is only logged). -/
def sendSubtask (c : Client) (dest data : String) : TaskM Unit := do
  let hash ← c.callSend { toAddr := dest, data := data, gasPrice := some HIGH_GAS_PRICE }
  let receipt ← c.callWait { hash := hash }
  if receipt.status = TxStatus.success then
    emit (Ev.log "Success!")
  else
    emit (Ev.log "Failed.")

/-- TASK 4: the four-step claim and burn sequence with its 5-second pauses
between subtasks. -/
def task_claimAndBurn (c : Client) : TaskM Unit := do
  emit (Ev.log "--- TASK 4: Claim & Burn Sequence (4 Steps) ---")
  emit (Ev.log "1. Claiming ORE...")
  sendSubtask c "0x0B1Bb8520a3443b43FA66B123f6C69aEBa41e7Cc" "0x4e71d92d"
  emit (Ev.sleep 5000)
  emit (Ev.log "2. Claiming MLUNARI...")
  sendSubtask c "0xEb3D9727D5bcAf5F792FA2eCFF73f6A9448c036B"
    "0x1e83409a000000000000000000000000c36e9b957e218cda978bd1b95745f15d8cedb3c4"
  emit (Ev.sleep 5000)
  emit (Ev.log "3. Approving ORE for burn...")
  sendSubtask c "0xC36e9B957E218cDa978bd1B95745f15d8CEDb3C4"
    "0x095ea7b3000000000000000000000000eb3d9727d5bcaf5f792fa2ecff73f6a9448c036b0000000000000000000000000000000000000000000000000de0b6b3a7640000"
  emit (Ev.sleep 5000)
  emit (Ev.log "4. Burning ORE...")
  sendSubtask c "0xEb3D9727D5bcAf5F792FA2eCFF73f6A9448c036B"
    "0xf4ec95d5000000000000000000000000c36e9b957e218cda978bd1b95745f15d8cedb3c40000000000000000000000000000000000000000000000000de0b6b3a7640000"

/-- Swap router address of TASK 5. -/
def SWAP_ROUTER_ADDRESS : String := "0x512320fC42aCFAdc0f6aDA03626a76eD726fDA63"

/-- HLS token address of TASK 5. -/
def HLS_TOKEN_ADDRESS : String := "0xD4949664cD82660AaE99bEdc034a0deA8A0bd517"

/-- WETH token address of TASK 5. -/
def WETH_TOKEN_ADDRESS : String := "0x80b5a32E4F032B2a058b4F29EC95EEfEEB87aDcd"

/-- TASK 5: read the router allowance; iff it is below the 1-token swap
amount, submit a maxUint256 approval (and wait for its receipt); then
submit the exactInputSingle swap and wait for its receipt.  `acct` is the
account address derived from the private key, `nowMs` the `Date.now()`
reading used for the 600-second deadline. -/
def task_swapTokens (c : Client) (acct : String) (nowMs : Nat) : TaskM Unit := do
  emit (Ev.log "--- TASK 5: Swapping HLS for WETH ---")
  let amountInWei := parseUnits 1 18
  let allowance ← c.callRead
    { address := HLS_TOKEN_ADDRESS, functionName := "allowance",
      args := [AbiArg.addr acct, AbiArg.addr SWAP_ROUTER_ADDRESS],
      gasPrice := none }
  if allowance < amountInWei then do
    emit (Ev.log "- Approving token for swap...")
    let approveHash ← c.callWrite
      { address := HLS_TOKEN_ADDRESS, functionName := "approve",
        args := [AbiArg.addr SWAP_ROUTER_ADDRESS, AbiArg.num maxUint256],
        gasPrice := some HIGH_GAS_PRICE }
    let _ ← c.callWait { hash := approveHash }
    emit (Ev.log "Approval complete.")
  else
    emit (Ev.log "- Token already approved.")
  emit (Ev.log "- Executing swap...")
  let deadline := nowMs / 1000 + 600
  let swapHash ← c.callWrite
    { address := SWAP_ROUTER_ADDRESS, functionName := "exactInputSingle",
      args := [AbiArg.swapTuple HLS_TOKEN_ADDRESS WETH_TOKEN_ADDRESS 3000
        acct deadline (parseUnits 1 18) 0 0],
      gasPrice := some HIGH_GAS_PRICE }
  let receipt ← c.callWait { hash := swapHash }
  if receipt.status = TxStatus.success then
    emit (Ev.log "Swap successful!")
  else
    emit (Ev.log "Swap failed.")

/-- Mintpad contract address of TASK 6. -/
def MINTPAD_CONTRACT_ADDRESS : String := "0xaaae0243007AA3000000d8e8bEeF0a944A0d3900"

/-- Hardcoded calldata template of TASK 6. -/
def TEMPLATE_DATA : String := "0x00000000000000000000000000000000000000000000000000000000000000000000006081860e8fec3115e6809be409cf5059a91b7be83ebbda4e0bb46bd9a50509b579000000000000000000000000000000000000000000000000000000000099000000000000000000000000000000000000000000000000000000000000000002440000000100000000000000000000000000000000000000000000000000000000000000c00000000000000000000000000000000000000000000000000000000000000100000000000000000000000000000000000000000000000000000000018cf78900000000000000000000000000000000000000000000000000000000000000000000000018000402ee0000000081860e8fec3115e6809be409cf5059a91b7be83e0000000000000000000000000000000000000000000000000000000000000140000000000000000000000000000000000000000000000000000000000000000561776461770000000000000000000000000000000000000000000000000000000000000000000000000000000000000000000000000000000000000000000003415744000000000000000000000000000000000000000000000000000000000000000000000000000000000000000000000000000000000000000000000000e0g0000000000000000000000000000000000000000000000000000000000000060000000000000000000000000000000000000000000000000000000000000008000000000000000000000000000000000000000000000000000000000000000c00000000000000000000000000000000000000000000000000000000000000000000000000000000000000000000000000000000000000000000000000000000868747470733a2f2f000000000000000000000000000000000000000000000000000000000000000000000000000000000000000000000000000000000000000000000000000000000000000000000000000000000000000000000000"

/-- Sender address as it appears inside the template calldata. -/
def YOUR_ADDRESS_IN_DATA : String := "81860e8fec3115e6809be409cf5059a91b7be83e"

/-- Decide whether `needle` occurs at the head of `hay` (character lists). -/
def matchesAt : List Char → List Char → Bool
  | [], _ => true
  | _ :: _, [] => false
  | a :: as, b :: bs => a == b && matchesAt as bs

/-- JavaScript `String.prototype.indexOf`: index of the first occurrence of
`sub` in `s` scanning left to right, or -1 when there is none. -/
def indexOfFrom (needle : List Char) : List Char → Nat → Option Nat
  | hay, i =>
    if matchesAt needle hay then some i
    else
      match hay with
      | [] => none
      | _ :: t => indexOfFrom needle t (i + 1)

/-- Result of `s.indexOf(sub)` with the JavaScript -1-on-failure encoding. -/
def jsIndexOf (s sub : String) : Int :=
  match indexOfFrom sub.toList s.toList 0 with
  | some n => (n : Int)
  | none => -1

/-- JavaScript `s.substring(a, b)` for `a ≤ b` (the only way the source
calls it): the characters of `s` with index in `[a, b)`. -/
def jsSubstring (s : String) (a b : Nat) : String :=
  ((s.toList.take b).drop a).asString

/-- saltStartIndex = TEMPLATE_DATA.indexOf(YOUR_ADDRESS_IN_DATA) +
YOUR_ADDRESS_IN_DATA.length. -/
def saltStartIndex : Int := jsIndexOf TEMPLATE_DATA YOUR_ADDRESS_IN_DATA
  + (YOUR_ADDRESS_IN_DATA.length : Int)

/-- saltEndIndex = saltStartIndex + 64 (32 bytes = 64 hex chars). -/
def saltEndIndex : Int := saltStartIndex + 64

/-- Calldata rebuilt by TASK 6: template text up to the salt window, then
the fresh salt, then the template after the salt window. -/
def mintpadData (newSalt : String) : String :=
  jsSubstring TEMPLATE_DATA 0 saltStartIndex.toNat ++ newSalt
    ++ jsSubstring TEMPLATE_DATA saltEndIndex.toNat TEMPLATE_DATA.length

/-- TASK 6: create a Mintpad NFT with a freshly generated 32-byte random
salt; `newSalt` is the hex encoding of the `crypto.randomBytes(32)` draw. -/
def task_createMintpadNFT (c : Client) (newSalt : String) : TaskM Unit := do
  emit (Ev.log "--- TASK 6: Creating Mintpad NFT (Dynamic Salt) ---")
  emit (Ev.log ("- Generated new salt: " ++ jsSubstring newSalt 0 10 ++ "..."))
  let hash ← c.callSend
    { toAddr := MINTPAD_CONTRACT_ADDRESS, data := mintpadData newSalt,
      gasPrice := some HIGH_GAS_PRICE }
  emit (Ev.log ("Tx Hash: " ++ hash))
  let receipt ← c.callWait { hash := hash }
  if receipt.status = TxStatus.success then
    emit (Ev.log "Mintpad NFT Created!")
  else
    emit (Ev.log "Mintpad NFT creation failed.")


/-! ## Trace utilities and concrete clients -/

/-- Gas price key carried by an event's request object (`none` when the
object literal has no such key). -/
def gasPriceOf : Ev → Option Nat
  | Ev.send p => p.gasPrice
  | Ev.write p => p.gasPrice
  | Ev.deploy p => p.gasPrice
  | Ev.read p => p.gasPrice
  | Ev.waitReceipt _ => none
  | Ev.log _ => none
  | Ev.sleep _ => none

/-- Whether an event is a chain-client invocation. -/
def isClientCall : Ev → Bool
  | Ev.send _ => true
  | Ev.write _ => true
  | Ev.deploy _ => true
  | Ev.read _ => true
  | Ev.waitReceipt _ => true
  | _ => false

/-- Whether an event is a transaction-submitting client invocation
(sendTransaction, writeContract or deployContract). -/
def isSubmitCall : Ev → Bool
  | Ev.send _ => true
  | Ev.write _ => true
  | Ev.deploy _ => true
  | _ => false

/-- Transaction submissions of a trace, in order. -/
def submitEvs (l : List Ev) : List Ev := l.filter isSubmitCall

/-- Chain client all of whose operations return: every submission yields
the hash `h`, every receipt poll the receipt `r` (of either status), and
the allowance read the value `allow`. -/
def mkClient (h : String) (r : Receipt) (allow : Nat) : Client where
  sendTransaction := fun _ => Except.ok h
  writeContract := fun _ => Except.ok h
  deployContract := fun _ => Except.ok h
  readContract := fun _ => Except.ok allow
  waitForTransactionReceipt := fun _ => Except.ok r

/-- Chain client whose deployContract call throws the network/client
exception `e`; all other operations return. -/
def deployThrowingClient (e h : String) (r : Receipt) (allow : Nat) : Client :=
  { mkClient h r allow with deployContract := fun _ => Except.error e }

/-- Chain client whose sendTransaction call throws the network/client
exception `e`; all other operations return. -/
def sendThrowingClient (e h : String) (r : Receipt) (allow : Nat) : Client :=
  { mkClient h r allow with sendTransaction := fun _ => Except.error e }

/-- Concatenated event trace of the six task functions: every chain-client
invocation the script makes during a session appears in one of these task
bodies. -/
def allTaskEvents (c : Client) (r1 r2 nowMs : Nat) (acct : String)
    (swapNowMs : Nat) (newSalt : String) : List Ev :=
  (task_deployContract c).1 ++ (task_createToken c r1 r2 nowMs).1
    ++ (task_mintNft c).1 ++ (task_claimAndBurn c).1
    ++ (task_swapTokens c acct swapNowMs).1
    ++ (task_createMintpadNFT c newSalt).1


/-- Gas discipline of one event: a transaction-submitting invocation
carries the fixed elevated gas price, and a non-submitting client
invocation (state read or receipt wait) carries no gas price key. -/
def GasOk (ev : Ev) : Prop :=
  (isSubmitCall ev = true → gasPriceOf ev = some HIGH_GAS_PRICE)
  ∧ (isClientCall ev = true → isSubmitCall ev = false → gasPriceOf ev = none)

/-! ## Sub-scheduler loops (source lines 261-317)

At scheduler level a task is a black box: the loop awaits it inside try/catch and
only observes whether it returned normally or threw.  An outcome assignment
`o : Nat → TaskName → Outcome` says, for each run number and task, what the
awaited task did; the loop trace is computed from it. -/

/-- Names of the task functions, in source order. -/
inductive TaskName
  | deployContract
  | createToken
  | mintNft
  | claimAndBurn
  | swapTokens
  | createMintpadNFT
deriving DecidableEq, Repr

/-- Observed behaviour of one awaited task call. -/
inductive Outcome
  | ok
  | threw (msg : String)
deriving DecidableEq, Repr

/-- Scheduler-level event: a task invocation, a caught-and-logged task
error, the 10-second pause after each task of the main loop, or the
1 h 05 m inter-run pause. -/
inductive SEv
  | exec (run : Nat) (t : TaskName)
  | caught (run : Nat) (t : TaskName) (msg : String)
  | taskDelay
  | intervalSleep
deriving DecidableEq, Repr

/-- The five-task list of `runMainTasks`, in its listed order. -/
def mainTasks : List TaskName :=
  [TaskName.deployContract, TaskName.mintNft, TaskName.claimAndBurn,
   TaskName.swapTokens, TaskName.createMintpadNFT]

/-- Translation of `try { await task() } catch (error) { console.error(...) }`:
the task is invoked, and when it throws the error is caught and logged; in
either case control falls through to the next statement. -/
def tryTask (o : Nat → TaskName → Outcome) (i : Nat) (t : TaskName) : List SEv :=
  SEv.exec i t ::
    (match o i t with
     | Outcome.ok => []
     | Outcome.threw m => [SEv.caught i t m])

/-- Body of iteration `i` of the `runMainTasks` for-loop: each of the five
tasks in order, each followed by the 10-second pause (which sits outside the
try/catch but inside the inner for-of loop). -/
def mainRunBody (o : Nat → TaskName → Outcome) (i : Nat) : List SEv :=
  (mainTasks.map (fun t => tryTask o i t ++ [SEv.taskDelay])).flatten

/-- Body of iteration `i` of the `runTokenDeploy` for-loop: the single
createToken task inside try/catch, with no per-task pause. -/
def tokenRunBody (o : Nat → TaskName → Outcome) (i : Nat) : List SEv :=
  tryTask o i TaskName.createToken

/-- One generic counted for-loop `for (let i = 1; i <= runs; i++)` whose
body is followed by the inter-run sleep exactly when `i < runs`; `fuel` is
the number of remaining iterations (`runs + 1 - i`). -/
def schedLoop (runs : Nat) (body : Nat → List SEv) : Nat → Nat → List SEv
  | 0, _ => []
  | Nat.succ fuel, i =>
      body i ++ (if i < runs then [SEv.intervalSleep] else [])
        ++ schedLoop runs body fuel (i + 1)

/-- Scheduler 1 (`runMainTasks`): ten iterations of the five-task sequence
starting at run number 1. -/
def runMainTasks (o : Nat → TaskName → Outcome) : List SEv :=
  schedLoop MAIN_RUNS_PER_SESSION (mainRunBody o) MAIN_RUNS_PER_SESSION 1

/-- Scheduler 2 (`runTokenDeploy`): three iterations of the single
createToken task starting at run number 1. -/
def runTokenDeploy (o : Nat → TaskName → Outcome) : List SEv :=
  schedLoop TOKEN_RUNS_PER_SESSION (tokenRunBody o) TOKEN_RUNS_PER_SESSION 1

/-- Task invocations of a scheduler trace, as (run, task) pairs in trace
order. -/
def execs (l : List SEv) : List (Nat × TaskName) :=
  l.filterMap fun e =>
    match e with
    | SEv.exec i t => some (i, t)
    | _ => none

/-- Number of inter-run interval sleeps in a scheduler trace. -/
def sleepCount (l : List SEv) : Nat :=
  l.count SEv.intervalSleep

/-! ## Date arithmetic of the master scheduler (source lines 356-364)

Following ECMAScript, a Date wraps a time value (milliseconds since epoch);
`LocalTime(t) = t + offset` with the offset determined from the UTC instant,
and `UTC(l) = l - offset` with the offset determined from the local time
value.  Both conversions are host parameters, kept abstract in `TZModel`.
For `d.setDate(d.getDate() + 1)` the ECMAScript algorithm yields
`MakeDate(MakeDay(Year(t), Month(t), DateFromTime(t) + 1), TimeWithinDay(t))`
on the local time value `t`; `MakeDay` is linear in its day argument, so the
local time value advances by exactly `msPerDay`. -/

/-- Milliseconds in one day. -/
def msPerDay : Int := 86400000

/-- Host time-zone conversion model: `offsetOfUTC t` is the local-time
adjustment (ms) for the UTC time value `t`, and `offsetOfLocal l` the
adjustment used when converting the local time value `l` back to UTC.
Under a fixed-offset zone both are the same constant; a DST transition
makes them differ around the change. -/
structure TZModel where
  offsetOfUTC : Int → Int
  offsetOfLocal : Int → Int

/-- ECMAScript `LocalTime`. -/
def localTimeOf (tz : TZModel) (t : Int) : Int := t + tz.offsetOfUTC t

/-- ECMAScript `UTC` applied to a local time value. -/
def utcOf (tz : TZModel) (l : Int) : Int := l - tz.offsetOfLocal l

/-- Time value of `nextSessionTime` after
`nextSessionTime.setDate(nextSessionTime.getDate() + 1)` applied to a copy
of the session start: one calendar day later at the same local wall-clock
time. -/
def nextSessionTimeOf (tz : TZModel) (sessionStartTime : Int) : Int :=
  utcOf tz (localTimeOf tz sessionStartTime + msPerDay)

/-- The waitTime the source computes: `nextSessionTime.getTime() - Date.now()`
(no clamping in the script itself). -/
def waitTimeOf (nextSessionTime now : Int) : Int := nextSessionTime - now

/-- Effective delay of `setTimeout(resolve, waitTime)`: the WHATWG timer
initialisation step sets a negative timeout to 0, so the slept duration is
the non-negative part of the requested one. -/
def setTimeoutDelay (requested : Int) : Int :=
  if requested < 0 then 0 else requested

/-- Duration the master scheduler actually sleeps between sessions. -/
def sleptWait (nextSessionTime now : Int) : Int :=
  setTimeoutDelay (waitTimeOf nextSessionTime now)

/-! ## Master scheduler loop structure (source lines 328-377) -/

/-- Phase of the `while (true)` body of `scheduleDailyRuns`. -/
inductive MasterPhase
  | startingSession
  | awaitingSchedulers
  | schedulersDone
  | sleeping
  | halted
deriving DecidableEq, Repr

/-- State of the master scheduler: which daily session it is in and where
inside the loop body it stands. -/
structure MasterState where
  day : Nat
  phase : MasterPhase
deriving DecidableEq, Repr

/-- Guard of the master loop; the source writes literally `while (true)`. -/
def loopGuard : Bool := true

/-- One step of the master scheduler.  Starting a session records the start
time and launches both sub-schedulers; `Promise.all` then resolves because
both sub-scheduler loops are finite; the scheduler computes the next
session time and wait time and sleeps; waking re-tests the loop guard and,
as it is literally `true`, starts the next session; `halted` (reachable
only through a false guard) is absorbing. -/
def masterStep : MasterState → MasterState
  | ⟨d, MasterPhase.startingSession⟩ => ⟨d, MasterPhase.awaitingSchedulers⟩
  | ⟨d, MasterPhase.awaitingSchedulers⟩ => ⟨d, MasterPhase.schedulersDone⟩
  | ⟨d, MasterPhase.schedulersDone⟩ => ⟨d, MasterPhase.sleeping⟩
  | ⟨d, MasterPhase.sleeping⟩ =>
      if loopGuard then ⟨d + 1, MasterPhase.startingSession⟩
      else ⟨d, MasterPhase.halted⟩
  | ⟨d, MasterPhase.halted⟩ => ⟨d, MasterPhase.halted⟩

/-! ## Scheduler lemmas -/

theorem execs_nil : execs [] = [] := rfl

theorem execs_append (a b : List SEv) : execs (a ++ b) = execs a ++ execs b := by
  simp [execs, List.filterMap_append]

theorem execs_tryTask (o : Nat → TaskName → Outcome) (i : Nat) (t : TaskName) :
    execs (tryTask o i t) = [(i, t)] := by
  rcases h : o i t with _ | m <;> simp [tryTask, execs, h]

theorem execs_sleepIf (c : Prop) [Decidable c] :
    execs (if c then [SEv.intervalSleep] else []) = [] := by
  split <;> rfl

theorem execs_mainRunBody (o : Nat → TaskName → Outcome) (i : Nat) :
    execs (mainRunBody o i) = mainTasks.map fun t => (i, t) := by
  simp only [mainRunBody, mainTasks, List.map_cons, List.map_nil, List.flatten_cons,
    List.flatten_nil, List.append_nil, execs_append, execs_tryTask]
  rfl

theorem execs_tokenRunBody (o : Nat → TaskName → Outcome) (i : Nat) :
    execs (tokenRunBody o i) = [(i, TaskName.createToken)] := by
  simp [tokenRunBody, execs_tryTask]

theorem execs_schedLoop (runs : Nat) (body : Nat → List SEv)
    (bex : Nat → List (Nat × TaskName)) (hb : ∀ i, execs (body i) = bex i) :
    ∀ fuel i : Nat,
      execs (schedLoop runs body fuel i) = ((List.range' i fuel).map bex).flatten
  | 0, i => by simp [schedLoop, execs_nil]
  | Nat.succ n, i => by
      rw [schedLoop, execs_append, execs_append, hb, execs_sleepIf,
        execs_schedLoop runs body bex hb n (i + 1)]
      simp [List.range'_succ]

theorem not_mem_sleepIf {e : SEv} (hne : e ≠ SEv.intervalSleep)
    (c : Prop) [Decidable c] :
    e ∈ (if c then [SEv.intervalSleep] else []) ↔ False := by
  split <;> simp [hne]

theorem mem_schedLoop_of_ne {e : SEv} (runs : Nat) (body : Nat → List SEv)
    (hne : e ≠ SEv.intervalSleep) :
    ∀ fuel i : Nat,
      (e ∈ schedLoop runs body fuel i ↔ ∃ j, j ∈ List.range' i fuel ∧ e ∈ body j)
  | 0, i => by simp [schedLoop]
  | Nat.succ n, i => by
      rw [schedLoop]
      simp only [List.mem_append, not_mem_sleepIf hne, or_false,
        mem_schedLoop_of_ne runs body hne n (i + 1), List.range'_succ, List.mem_cons]
      constructor
      · rintro (h | ⟨j, hj, h⟩)
        · exact ⟨i, Or.inl rfl, h⟩
        · exact ⟨j, Or.inr hj, h⟩
      · rintro ⟨j, hd, h⟩
        rcases hd with rfl | hj
        · exact Or.inl h
        · exact Or.inr ⟨j, hj, h⟩

theorem sleepCount_nil : sleepCount [] = 0 := rfl

theorem sleepCount_append (a b : List SEv) :
    sleepCount (a ++ b) = sleepCount a + sleepCount b := by
  simp [sleepCount, List.count_append]

theorem sleepCount_sleepIf (c : Prop) [Decidable c] :
    sleepCount (if c then [SEv.intervalSleep] else []) = if c then 1 else 0 := by
  split <;> rfl

theorem sleepCount_schedLoop (runs : Nat) (body : Nat → List SEv)
    (hb : ∀ i, sleepCount (body i) = 0) :
    ∀ fuel i : Nat,
      sleepCount (schedLoop runs body fuel i)
        = (List.range' i fuel).countP (fun j => decide (j < runs))
  | 0, i => by simp [schedLoop, sleepCount]
  | Nat.succ n, i => by
      rw [schedLoop, sleepCount_append, sleepCount_append, hb, sleepCount_sleepIf,
        sleepCount_schedLoop runs body hb n (i + 1)]
      rw [List.range'_succ, List.countP_cons]
      simp only [decide_eq_true_eq]
      split <;> omega

theorem intercalate_cons_of_ne_nil {α : Type} (sep a : List α)
    (l : List (List α)) (h : l ≠ []) :
    List.intercalate sep (a :: l) = a ++ sep ++ List.intercalate sep l := by
  cases l with
  | nil => exact absurd rfl h
  | cons b t => simp [List.intercalate, List.intersperse_cons₂, List.append_assoc]

theorem schedLoop_intercalate (runs : Nat) (body : Nat → List SEv) :
    ∀ fuel i : Nat, i + fuel = runs + 1 → 0 < fuel →
      schedLoop runs body fuel i
        = List.intercalate [SEv.intervalSleep] ((List.range' i fuel).map body)
  | 0, _, _, hf => absurd hf (by simp)
  | 1, i, hsum, _ => by
      have hi : i = runs := by omega
      rw [schedLoop, schedLoop]
      simp [hi, List.intercalate]
  | Nat.succ (Nat.succ n), i, hsum, _ => by
      have hi : i < runs := by omega
      rw [schedLoop,
        schedLoop_intercalate runs body (Nat.succ n) (i + 1) (by omega) (by omega)]
      conv_rhs => rw [List.range'_succ, List.map_cons,
        intercalate_cons_of_ne_nil _ _ _ (by simp)]
      simp [hi, List.append_assoc]

theorem sleepCount_tryTask (o : Nat → TaskName → Outcome) (i : Nat) (t : TaskName) :
    sleepCount (tryTask o i t) = 0 := by
  rcases h : o i t with _ | m <;> simp [tryTask, h, sleepCount]

theorem sleepCount_mainRunBody (o : Nat → TaskName → Outcome) (i : Nat) :
    sleepCount (mainRunBody o i) = 0 := by
  simp only [mainRunBody, mainTasks, List.map_cons, List.map_nil, List.flatten_cons,
    List.flatten_nil, List.append_nil, sleepCount_append, sleepCount_tryTask]
  rfl

theorem sleepCount_tokenRunBody (o : Nat → TaskName → Outcome) (i : Nat) :
    sleepCount (tokenRunBody o i) = 0 := by
  simp [tokenRunBody, sleepCount_tryTask]

theorem caught_mem_tryTask (o : Nat → TaskName → Outcome)
    {i t m j} {t₁ : TaskName} :
    SEv.caught i t m ∈ tryTask o j t₁
      ↔ (j = i ∧ t₁ = t ∧ o j t₁ = Outcome.threw m) := by
  rcases h : o j t₁ with _ | m₁ <;> simp [tryTask, h]
  constructor
  · rintro ⟨rfl, rfl, rfl⟩
    exact ⟨rfl, rfl, rfl⟩
  · rintro ⟨rfl, rfl, he⟩
    cases he
    exact ⟨rfl, rfl, rfl⟩

theorem caught_mem_mainRunBody (o : Nat → TaskName → Outcome) {i t m j} :
    SEv.caught i t m ∈ mainRunBody o j
      ↔ (j = i ∧ t ∈ mainTasks ∧ o j t = Outcome.threw m) := by
  simp only [mainRunBody, List.mem_flatten, List.mem_map]
  constructor
  · rintro ⟨l, ⟨t₁, ht₁, rfl⟩, hm⟩
    rcases List.mem_append.1 hm with hm | hm
    · rcases (caught_mem_tryTask o).1 hm with ⟨rfl, rfl, he⟩
      exact ⟨rfl, ht₁, he⟩
    · simp at hm
  · rintro ⟨rfl, ht, he⟩
    refine ⟨tryTask o j t ++ [SEv.taskDelay], ⟨t, ht, rfl⟩, ?_⟩
    exact List.mem_append.2 (Or.inl ((caught_mem_tryTask o).2 ⟨rfl, rfl, he⟩))

/-! ## Claim theorems: sub-scheduler behaviour -/

/-- C1: each sub-scheduler executes its task list exactly its configured
number of times, the tasks of each run in their listed order, whatever
outcome every task call has: the task executions of `runMainTasks` are the
five-task list once per run number 1..10 (50 executions), and those of
`runTokenDeploy` are the single createToken task once per run number
1..3. -/
theorem claim_scheduler_run_counts (o : Nat → TaskName → Outcome) :
    execs (runMainTasks o)
      = ((List.range' 1 MAIN_RUNS_PER_SESSION).map
          (fun i => mainTasks.map fun t => (i, t))).flatten
    ∧ execs (runTokenDeploy o)
      = (List.range' 1 TOKEN_RUNS_PER_SESSION).map
          (fun i => (i, TaskName.createToken))
    ∧ (execs (runMainTasks o)).length = MAIN_RUNS_PER_SESSION * mainTasks.length
    ∧ (execs (runTokenDeploy o)).length = TOKEN_RUNS_PER_SESSION := by
  have hm := execs_schedLoop MAIN_RUNS_PER_SESSION (mainRunBody o) _
    (execs_mainRunBody o) MAIN_RUNS_PER_SESSION 1
  have ht := execs_schedLoop TOKEN_RUNS_PER_SESSION (tokenRunBody o) _
    (execs_tokenRunBody o) TOKEN_RUNS_PER_SESSION 1
  rw [runMainTasks, runTokenDeploy, hm, ht]
  refine ⟨rfl, by decide, by decide, by decide⟩

/-- C2: one task throwing changes nothing about which task executions
happen: the executed (run, task) sequence of either sub-scheduler is the
same under every outcome assignment (no abort), a caught-and-logged error
event appears for run i and task t exactly when that task threw in that
run, and no (run, task) pair is executed more than once (no retry). -/
theorem claim_task_error_isolation (o oo : Nat → TaskName → Outcome) :
    execs (runMainTasks o) = execs (runMainTasks oo)
    ∧ execs (runTokenDeploy o) = execs (runTokenDeploy oo)
    ∧ (∀ i t m, SEv.caught i t m ∈ runMainTasks o
        ↔ (i ∈ List.range' 1 MAIN_RUNS_PER_SESSION ∧ t ∈ mainTasks
            ∧ o i t = Outcome.threw m))
    ∧ (∀ i t m, SEv.caught i t m ∈ runTokenDeploy o
        ↔ (i ∈ List.range' 1 TOKEN_RUNS_PER_SESSION ∧ t = TaskName.createToken
            ∧ o i t = Outcome.threw m))
    ∧ (execs (runMainTasks o)).Nodup
    ∧ (execs (runTokenDeploy o)).Nodup := by
  have hm := execs_schedLoop MAIN_RUNS_PER_SESSION (mainRunBody o) _
    (execs_mainRunBody o) MAIN_RUNS_PER_SESSION 1
  have hmo := execs_schedLoop MAIN_RUNS_PER_SESSION (mainRunBody oo) _
    (execs_mainRunBody oo) MAIN_RUNS_PER_SESSION 1
  have ht := execs_schedLoop TOKEN_RUNS_PER_SESSION (tokenRunBody o) _
    (execs_tokenRunBody o) TOKEN_RUNS_PER_SESSION 1
  have hto := execs_schedLoop TOKEN_RUNS_PER_SESSION (tokenRunBody oo) _
    (execs_tokenRunBody oo) TOKEN_RUNS_PER_SESSION 1
  refine ⟨?_, ?_, ?_, ?_, ?_, ?_⟩
  · rw [runMainTasks, runMainTasks, hm, hmo]
  · rw [runTokenDeploy, runTokenDeploy, ht, hto]
  · intro i t m
    rw [runMainTasks,
      mem_schedLoop_of_ne MAIN_RUNS_PER_SESSION (mainRunBody o) (by simp)]
    constructor
    · rintro ⟨j, hj, hb⟩
      rcases (caught_mem_mainRunBody o).1 hb with ⟨rfl, hmem, he⟩
      exact ⟨hj, hmem, he⟩
    · rintro ⟨hi, hmem, he⟩
      exact ⟨i, hi, (caught_mem_mainRunBody o).2 ⟨rfl, hmem, he⟩⟩
  · intro i t m
    rw [runTokenDeploy,
      mem_schedLoop_of_ne TOKEN_RUNS_PER_SESSION (tokenRunBody o) (by simp)]
    constructor
    · rintro ⟨j, hj, hb⟩
      rcases (caught_mem_tryTask o).1 hb with ⟨rfl, rfl, he⟩
      exact ⟨hj, rfl, he⟩
    · rintro ⟨hi, rfl, he⟩
      exact ⟨i, hi, (caught_mem_tryTask o).2 ⟨rfl, rfl, he⟩⟩
  · rw [runMainTasks, hm]
    decide
  · rw [runTokenDeploy, ht]
    decide

/-- C7: the inter-run interval sleep separates consecutive runs and occurs
nowhere else: each sub-scheduler trace is its run bodies joined with a
single interval sleep between consecutive bodies (hence none after the
final run), the bodies themselves contain no interval sleep, and the
total number of interval sleeps is one less than the run count. -/
theorem claim_interval_sleep_placement (o : Nat → TaskName → Outcome) :
    runMainTasks o
      = List.intercalate [SEv.intervalSleep]
          ((List.range' 1 MAIN_RUNS_PER_SESSION).map (mainRunBody o))
    ∧ runTokenDeploy o
      = List.intercalate [SEv.intervalSleep]
          ((List.range' 1 TOKEN_RUNS_PER_SESSION).map (tokenRunBody o))
    ∧ (∀ i, sleepCount (mainRunBody o i) = 0)
    ∧ (∀ i, sleepCount (tokenRunBody o i) = 0)
    ∧ sleepCount (runMainTasks o) = MAIN_RUNS_PER_SESSION - 1
    ∧ sleepCount (runTokenDeploy o) = TOKEN_RUNS_PER_SESSION - 1 := by
  refine ⟨?_, ?_, sleepCount_mainRunBody o, sleepCount_tokenRunBody o, ?_, ?_⟩
  · rw [runMainTasks]
    exact schedLoop_intercalate MAIN_RUNS_PER_SESSION (mainRunBody o)
      MAIN_RUNS_PER_SESSION 1 (by decide) (by decide)
  · rw [runTokenDeploy]
    exact schedLoop_intercalate TOKEN_RUNS_PER_SESSION (tokenRunBody o)
      TOKEN_RUNS_PER_SESSION 1 (by decide) (by decide)
  · rw [runMainTasks,
      sleepCount_schedLoop MAIN_RUNS_PER_SESSION (mainRunBody o)
        (sleepCount_mainRunBody o)]
    decide
  · rw [runTokenDeploy,
      sleepCount_schedLoop TOKEN_RUNS_PER_SESSION (tokenRunBody o)
        (sleepCount_tokenRunBody o)]
    decide

/-! ## Claim theorems: master scheduler timing -/

/-- C3 as stated is false: `setDate(getDate() + 1)` moves to the same local
wall-clock time one calendar day later, which is not 24 real hours after
the start when the host UTC offset changes in between (a DST transition).
Here the offset grows by one hour during the first day, and the computed
next-session time is only 23 hours after the start. -/
theorem claim_next_session_counterexample :
    nextSessionTimeOf
        { offsetOfUTC := fun t => if t < 43200000 then 0 else 3600000,
          offsetOfLocal := fun l => if l < 43200000 then 0 else 3600000 }
        0
      ≠ 0 + msPerDay := by decide

/-- C3 (amended): the computed next-session time is the session start moved
one calendar day forward at the same local wall-clock time; whenever the
host UTC offset at the session start equals the offset at that next local
time — in particular under any fixed-offset time zone, i.e. whenever no
DST change intervenes — it equals the recorded session start time plus
exactly 24 hours, regardless of how long the session took (the session
duration does not enter the computation at all). -/
theorem claim_next_session_time (tz : TZModel) (sessionStartTime : Int)
    (h : tz.offsetOfUTC sessionStartTime
      = tz.offsetOfLocal (localTimeOf tz sessionStartTime + msPerDay)) :
    nextSessionTimeOf tz sessionStartTime = sessionStartTime + msPerDay := by
  unfold nextSessionTimeOf utcOf localTimeOf at *
  omega

/-- Witness for C3 (amended) in the fixed-offset zone with offset 0. -/
theorem claim_next_session_time_witness :
    nextSessionTimeOf ⟨fun _ => 0, fun _ => 0⟩ 0 = 0 + msPerDay :=
  claim_next_session_time ⟨fun _ => 0, fun _ => 0⟩ 0 rfl

/-- C4: the script computes `waitTime = nextSessionTime - now` without
clamping, and the duration the master scheduler then actually sleeps —
the effective `setTimeout` delay, whose negative requests the host timer
clamps to zero — equals max(0, nextSessionTime - now) and is never
negative, also when the session ran longer than one day (now beyond the
next session time). -/
theorem claim_wait_duration (nextSessionTime now : Int) :
    waitTimeOf nextSessionTime now = nextSessionTime - now
    ∧ sleptWait nextSessionTime now = max 0 (nextSessionTime - now)
    ∧ 0 ≤ sleptWait nextSessionTime now := by
  unfold sleptWait setTimeoutDelay waitTimeOf
  refine ⟨rfl, ?_, ?_⟩ <;> split <;> omega

/-- C8: the master scheduler never reaches a terminal state: from any
non-halted state every number of steps leaves it non-halted (the only
transition into `halted` is guarded by the loop condition, which is
literally `true`), and once both sub-schedulers of day d are finished the
machine is back at the start of session d + 1 two steps later. -/
theorem claim_master_never_halts :
    (∀ s : MasterState, s.phase ≠ MasterPhase.halted →
      ∀ n, (masterStep^[n] s).phase ≠ MasterPhase.halted)
    ∧ (∀ d, masterStep (masterStep ⟨d, MasterPhase.schedulersDone⟩)
        = ⟨d + 1, MasterPhase.startingSession⟩) := by
  constructor
  · have h1 : ∀ s : MasterState, s.phase ≠ MasterPhase.halted →
        (masterStep s).phase ≠ MasterPhase.halted := by
      rintro ⟨d, ph⟩ h
      cases ph <;> simp_all [masterStep, loopGuard]
    intro s hs n
    induction n generalizing s with
    | zero => simpa using hs
    | succ n ih =>
        rw [Function.iterate_succ_apply]
        exact ih _ (h1 s hs)
  · intro d
    rfl

/-- Witness for C8: five steps from the very first session start the
machine is still running. -/
theorem claim_master_never_halts_witness :
    (masterStep^[5] ⟨0, MasterPhase.startingSession⟩).phase
      ≠ MasterPhase.halted :=
  claim_master_never_halts.1 ⟨0, MasterPhase.startingSession⟩ (by decide) 5

/-! ## Task-trace lemmas -/

theorem bind_eq_bind {α β : Type} (m : TaskM α) (f : α → TaskM β) :
    m >>= f = TaskM.bind m f := rfl

theorem mem_fst_bind {α β : Type} {m : TaskM α} {f : α → TaskM β} {ev : Ev}
    (hm : ev ∈ (TaskM.bind m f).1) : ev ∈ m.1 ∨ ∃ a, ev ∈ (f a).1 := by
  rcases m with ⟨evs, r⟩
  cases r with
  | error e => exact Or.inl hm
  | ok a =>
      rcases List.mem_append.1 hm with h | h
      · exact Or.inl h
      · exact Or.inr ⟨a, h⟩

theorem gasOk_of_log (m : String) : GasOk (Ev.log m) := by
  refine ⟨fun h => ?_, fun h _ => ?_⟩ <;> simp [isSubmitCall, isClientCall] at h

theorem gasOk_of_sleep (n : Nat) : GasOk (Ev.sleep n) := by
  refine ⟨fun h => ?_, fun h _ => ?_⟩ <;> simp [isSubmitCall, isClientCall] at h

theorem gasOk_of_send (p : SendTxParams) (hp : p.gasPrice = some HIGH_GAS_PRICE) :
    GasOk (Ev.send p) := by
  refine ⟨fun _ => hp, fun _ h => ?_⟩
  simp [isSubmitCall] at h

theorem gasOk_of_write (p : WriteParams) (hp : p.gasPrice = some HIGH_GAS_PRICE) :
    GasOk (Ev.write p) := by
  refine ⟨fun _ => hp, fun _ h => ?_⟩
  simp [isSubmitCall] at h

theorem gasOk_of_deploy (p : DeployParams) (hp : p.gasPrice = some HIGH_GAS_PRICE) :
    GasOk (Ev.deploy p) := by
  refine ⟨fun _ => hp, fun _ h => ?_⟩
  simp [isSubmitCall] at h

theorem gasOk_of_read (p : ReadParams) (hp : p.gasPrice = none) :
    GasOk (Ev.read p) := by
  refine ⟨fun h => ?_, fun _ _ => hp⟩
  simp [isSubmitCall] at h

theorem gasOk_of_wait (p : ReceiptParams) : GasOk (Ev.waitReceipt p) := by
  refine ⟨fun h => ?_, fun _ _ => rfl⟩
  simp [isSubmitCall] at h

theorem gasOk_task_deployContract (c : Client) :
    ∀ ev ∈ (task_deployContract c).1, GasOk ev := by
  intro ev hm
  simp only [task_deployContract] at hm
  rcases mem_fst_bind hm with h | ⟨_, hm⟩
  · rw [List.mem_singleton.1 h]; exact gasOk_of_log _
  rcases mem_fst_bind hm with h | ⟨hash, hm⟩
  · rw [List.mem_singleton.1 h]; exact gasOk_of_deploy _ rfl
  rcases mem_fst_bind hm with h | ⟨_, hm⟩
  · rw [List.mem_singleton.1 h]; exact gasOk_of_log _
  rcases mem_fst_bind hm with h | ⟨receipt, hm⟩
  · rw [List.mem_singleton.1 h]; exact gasOk_of_wait _
  split at hm
  · rw [List.mem_singleton.1 hm]; exact gasOk_of_log _
  · rw [List.mem_singleton.1 hm]; exact gasOk_of_log _

theorem gasOk_task_createToken (c : Client) (r1 r2 nowMs : Nat) :
    ∀ ev ∈ (task_createToken c r1 r2 nowMs).1, GasOk ev := by
  intro ev hm
  simp only [task_createToken] at hm
  rcases mem_fst_bind hm with h | ⟨_, hm⟩
  · rw [List.mem_singleton.1 h]; exact gasOk_of_log _
  rcases mem_fst_bind hm with h | ⟨hash, hm⟩
  · rw [List.mem_singleton.1 h]; exact gasOk_of_write _ rfl
  rcases mem_fst_bind hm with h | ⟨_, hm⟩
  · rw [List.mem_singleton.1 h]; exact gasOk_of_log _
  rcases mem_fst_bind hm with h | ⟨receipt, hm⟩
  · rw [List.mem_singleton.1 h]; exact gasOk_of_wait _
  split at hm
  · rw [List.mem_singleton.1 hm]; exact gasOk_of_log _
  · rw [List.mem_singleton.1 hm]; exact gasOk_of_log _

theorem gasOk_task_mintNft (c : Client) :
    ∀ ev ∈ (task_mintNft c).1, GasOk ev := by
  intro ev hm
  simp only [task_mintNft] at hm
  rcases mem_fst_bind hm with h | ⟨_, hm⟩
  · rw [List.mem_singleton.1 h]; exact gasOk_of_log _
  rcases mem_fst_bind hm with h | ⟨hash, hm⟩
  · rw [List.mem_singleton.1 h]; exact gasOk_of_send _ rfl
  rcases mem_fst_bind hm with h | ⟨_, hm⟩
  · rw [List.mem_singleton.1 h]; exact gasOk_of_log _
  rcases mem_fst_bind hm with h | ⟨receipt, hm⟩
  · rw [List.mem_singleton.1 h]; exact gasOk_of_wait _
  split at hm
  · rw [List.mem_singleton.1 hm]; exact gasOk_of_log _
  · rw [List.mem_singleton.1 hm]; exact gasOk_of_log _

theorem gasOk_sendSubtask (c : Client) (dest data : String) :
    ∀ ev ∈ (sendSubtask c dest data).1, GasOk ev := by
  intro ev hm
  simp only [sendSubtask] at hm
  rcases mem_fst_bind hm with h | ⟨hash, hm⟩
  · rw [List.mem_singleton.1 h]; exact gasOk_of_send _ rfl
  rcases mem_fst_bind hm with h | ⟨receipt, hm⟩
  · rw [List.mem_singleton.1 h]; exact gasOk_of_wait _
  split at hm
  · rw [List.mem_singleton.1 hm]; exact gasOk_of_log _
  · rw [List.mem_singleton.1 hm]; exact gasOk_of_log _

theorem gasOk_task_claimAndBurn (c : Client) :
    ∀ ev ∈ (task_claimAndBurn c).1, GasOk ev := by
  intro ev hm
  simp only [task_claimAndBurn] at hm
  rcases mem_fst_bind hm with h | ⟨_, hm⟩
  · rw [List.mem_singleton.1 h]; exact gasOk_of_log _
  rcases mem_fst_bind hm with h | ⟨_, hm⟩
  · rw [List.mem_singleton.1 h]; exact gasOk_of_log _
  rcases mem_fst_bind hm with h | ⟨_, hm⟩
  · exact gasOk_sendSubtask c _ _ ev h
  rcases mem_fst_bind hm with h | ⟨_, hm⟩
  · rw [List.mem_singleton.1 h]; exact gasOk_of_sleep _
  rcases mem_fst_bind hm with h | ⟨_, hm⟩
  · rw [List.mem_singleton.1 h]; exact gasOk_of_log _
  rcases mem_fst_bind hm with h | ⟨_, hm⟩
  · exact gasOk_sendSubtask c _ _ ev h
  rcases mem_fst_bind hm with h | ⟨_, hm⟩
  · rw [List.mem_singleton.1 h]; exact gasOk_of_sleep _
  rcases mem_fst_bind hm with h | ⟨_, hm⟩
  · rw [List.mem_singleton.1 h]; exact gasOk_of_log _
  rcases mem_fst_bind hm with h | ⟨_, hm⟩
  · exact gasOk_sendSubtask c _ _ ev h
  rcases mem_fst_bind hm with h | ⟨_, hm⟩
  · rw [List.mem_singleton.1 h]; exact gasOk_of_sleep _
  rcases mem_fst_bind hm with h | ⟨_, hm⟩
  · rw [List.mem_singleton.1 h]; exact gasOk_of_log _
  exact gasOk_sendSubtask c _ _ ev hm

theorem gasOk_task_swapTokens (c : Client) (acct : String) (swapNowMs : Nat) :
    ∀ ev ∈ (task_swapTokens c acct swapNowMs).1, GasOk ev := by
  intro ev hm
  simp only [task_swapTokens] at hm
  rcases mem_fst_bind hm with h | ⟨_, hm⟩
  · rw [List.mem_singleton.1 h]; exact gasOk_of_log _
  rcases mem_fst_bind hm with h | ⟨allowance, hm⟩
  · rw [List.mem_singleton.1 h]; exact gasOk_of_read _ rfl
  split at hm
  · rcases mem_fst_bind hm with h | ⟨_, hm⟩
    · rw [List.mem_singleton.1 h]; exact gasOk_of_log _
    rcases mem_fst_bind hm with h | ⟨approveHash, hm⟩
    · rw [List.mem_singleton.1 h]; exact gasOk_of_write _ rfl
    rcases mem_fst_bind hm with h | ⟨_, hm⟩
    · rw [List.mem_singleton.1 h]; exact gasOk_of_wait _
    rcases mem_fst_bind hm with h | ⟨_, hm⟩
    · rw [List.mem_singleton.1 h]; exact gasOk_of_log _
    rcases mem_fst_bind hm with h | ⟨_, hm⟩
    · rw [List.mem_singleton.1 h]; exact gasOk_of_log _
    rcases mem_fst_bind hm with h | ⟨swapHash, hm⟩
    · rw [List.mem_singleton.1 h]; exact gasOk_of_write _ rfl
    rcases mem_fst_bind hm with h | ⟨receipt, hm⟩
    · rw [List.mem_singleton.1 h]; exact gasOk_of_wait _
    split at hm
    · rw [List.mem_singleton.1 hm]; exact gasOk_of_log _
    · rw [List.mem_singleton.1 hm]; exact gasOk_of_log _
  · rcases mem_fst_bind hm with h | ⟨_, hm⟩
    · rw [List.mem_singleton.1 h]; exact gasOk_of_log _
    rcases mem_fst_bind hm with h | ⟨_, hm⟩
    · rw [List.mem_singleton.1 h]; exact gasOk_of_log _
    rcases mem_fst_bind hm with h | ⟨swapHash, hm⟩
    · rw [List.mem_singleton.1 h]; exact gasOk_of_write _ rfl
    rcases mem_fst_bind hm with h | ⟨receipt, hm⟩
    · rw [List.mem_singleton.1 h]; exact gasOk_of_wait _
    split at hm
    · rw [List.mem_singleton.1 hm]; exact gasOk_of_log _
    · rw [List.mem_singleton.1 hm]; exact gasOk_of_log _

theorem gasOk_task_createMintpadNFT (c : Client) (newSalt : String) :
    ∀ ev ∈ (task_createMintpadNFT c newSalt).1, GasOk ev := by
  intro ev hm
  simp only [task_createMintpadNFT] at hm
  rcases mem_fst_bind hm with h | ⟨_, hm⟩
  · rw [List.mem_singleton.1 h]; exact gasOk_of_log _
  rcases mem_fst_bind hm with h | ⟨_, hm⟩
  · rw [List.mem_singleton.1 h]; exact gasOk_of_log _
  rcases mem_fst_bind hm with h | ⟨hash, hm⟩
  · rw [List.mem_singleton.1 h]; exact gasOk_of_send _ rfl
  rcases mem_fst_bind hm with h | ⟨_, hm⟩
  · rw [List.mem_singleton.1 h]; exact gasOk_of_log _
  rcases mem_fst_bind hm with h | ⟨receipt, hm⟩
  · rw [List.mem_singleton.1 h]; exact gasOk_of_wait _
  split at hm
  · rw [List.mem_singleton.1 hm]; exact gasOk_of_log _
  · rw [List.mem_singleton.1 hm]; exact gasOk_of_log _

/-! ## Claim theorems: gas price discipline -/

/-- C6 as stated is false: not every consumed chain-client operation is
invoked with the elevated gas price — the allowance `readContract`
invocation of task 5 (like every receipt wait) carries no gas price key.
Concrete instance: an all-success client with allowance 0. -/
theorem claim_gas_price_counterexample :
    ¬ ∀ ev ∈ allTaskEvents
        (mkClient "0xhash" ⟨TxStatus.success, 1, "0xc"⟩ 0) 1 2 3 "0xacct" 4
        "abcd",
        isClientCall ev = true → gasPriceOf ev = some HIGH_GAS_PRICE := by
  intro hall
  have hmem : Ev.read
      ⟨HLS_TOKEN_ADDRESS, "allowance",
        [AbiArg.addr "0xacct", AbiArg.addr SWAP_ROUTER_ADDRESS], none⟩
      ∈ allTaskEvents (mkClient "0xhash" ⟨TxStatus.success, 1, "0xc"⟩ 0)
        1 2 3 "0xacct" 4 "abcd" := by decide
  exact absurd (hall _ hmem rfl) (by decide)

/-- C6 (amended): every transaction-submitting client operation
(sendTransaction, writeContract, deployContract) the script makes is
invoked with the fixed elevated gas price HIGH_GAS_PRICE, while the two
non-submitting operations (readContract, waitForTransactionReceipt) are
invoked with no gas price key — for every client behaviour, randomness,
account and timing input. -/
theorem claim_gas_price_discipline (c : Client) (r1 r2 nowMs : Nat)
    (acct : String) (swapNowMs : Nat) (newSalt : String) :
    ∀ ev ∈ allTaskEvents c r1 r2 nowMs acct swapNowMs newSalt, GasOk ev := by
  intro ev hm
  simp only [allTaskEvents, List.mem_append] at hm
  rcases hm with ((((hm | hm) | hm) | hm) | hm) | hm
  · exact gasOk_task_deployContract c ev hm
  · exact gasOk_task_createToken c r1 r2 nowMs ev hm
  · exact gasOk_task_mintNft c ev hm
  · exact gasOk_task_claimAndBurn c ev hm
  · exact gasOk_task_swapTokens c acct swapNowMs ev hm
  · exact gasOk_task_createMintpadNFT c newSalt ev hm

set_option maxRecDepth 10000 in
/-- Witness for C6 (amended): the contract-deploy invocation of task 1
under an all-success client satisfies the gas discipline. -/
theorem claim_gas_price_discipline_witness :
    GasOk (Ev.deploy ⟨counterBytecode, [], some HIGH_GAS_PRICE⟩) :=
  claim_gas_price_discipline
    (mkClient "0xhash" ⟨TxStatus.success, 1, "0xc"⟩ 0) 1 2 3 "0xacct" 4
    "abcd" _ (by decide)

/-! ## Task result lemmas -/

theorem snd_task_deployContract (h : String) (r : Receipt) (allow : Nat) :
    (task_deployContract (mkClient h r allow)).2 = Except.ok () := by
  rcases r with ⟨st, bn, ca⟩
  cases st <;> rfl

theorem snd_task_createToken (h : String) (r : Receipt) (allow r1 r2 nowMs : Nat) :
    (task_createToken (mkClient h r allow) r1 r2 nowMs).2 = Except.ok () := by
  rcases r with ⟨st, bn, ca⟩
  cases st <;> rfl

theorem snd_task_mintNft (h : String) (r : Receipt) (allow : Nat) :
    (task_mintNft (mkClient h r allow)).2 = Except.ok () := by
  rcases r with ⟨st, bn, ca⟩
  cases st <;> rfl

theorem snd_sendSubtask (h : String) (r : Receipt) (allow : Nat)
    (dest data : String) :
    (sendSubtask (mkClient h r allow) dest data).2 = Except.ok () := by
  rcases r with ⟨st, bn, ca⟩
  cases st <;> rfl

theorem snd_task_claimAndBurn (h : String) (r : Receipt) (allow : Nat) :
    (task_claimAndBurn (mkClient h r allow)).2 = Except.ok () := by
  rcases r with ⟨st, bn, ca⟩
  cases st <;> rfl

theorem snd_task_swapTokens (h acct : String) (r : Receipt)
    (allow swapNow : Nat) :
    (task_swapTokens (mkClient h r allow) acct swapNow).2 = Except.ok () := by
  rcases r with ⟨st, bn, ca⟩
  by_cases hlt : allow < parseUnits 1 18 <;>
    cases st <;>
      simp [task_swapTokens, hlt, TaskM.bind, emit, Client.callRead,
        Client.callWrite, Client.callWait, mkClient, Bind.bind, Pure.pure,
        TaskM.pure]

theorem snd_task_createMintpadNFT (h : String) (r : Receipt) (allow : Nat)
    (newSalt : String) :
    (task_createMintpadNFT (mkClient h r allow) newSalt).2 = Except.ok () := by
  rcases r with ⟨st, bn, ca⟩
  cases st <;> rfl

/-- C5: under a chain client whose operations all return — with receipts
of either status — every task function returns normally, a failed or
reverted receipt being only logged; the submissions a task makes are one
fixed list, independent of the receipt status (no retry; shown for the
two cited functions, the deploy task and the claim/burn send helper); and
a task raises exactly when the chain client itself throws, propagating
that error. -/
theorem claim_failed_receipt_only_logged (h acct dest data e : String)
    (st : TxStatus) (bn : Nat) (ca : String)
    (allow r1 r2 nowMs swapNow : Nat) (newSalt : String) :
    (task_deployContract (mkClient h ⟨st, bn, ca⟩ allow)).2 = Except.ok ()
    ∧ (sendSubtask (mkClient h ⟨st, bn, ca⟩ allow) dest data).2 = Except.ok ()
    ∧ (task_createToken (mkClient h ⟨st, bn, ca⟩ allow) r1 r2 nowMs).2
        = Except.ok ()
    ∧ (task_mintNft (mkClient h ⟨st, bn, ca⟩ allow)).2 = Except.ok ()
    ∧ (task_claimAndBurn (mkClient h ⟨st, bn, ca⟩ allow)).2 = Except.ok ()
    ∧ (task_swapTokens (mkClient h ⟨st, bn, ca⟩ allow) acct swapNow).2
        = Except.ok ()
    ∧ (task_createMintpadNFT (mkClient h ⟨st, bn, ca⟩ allow) newSalt).2
        = Except.ok ()
    ∧ submitEvs (task_deployContract (mkClient h ⟨st, bn, ca⟩ allow)).1
        = [Ev.deploy ⟨counterBytecode, [], some HIGH_GAS_PRICE⟩]
    ∧ submitEvs (sendSubtask (mkClient h ⟨st, bn, ca⟩ allow) dest data).1
        = [Ev.send ⟨dest, data, some HIGH_GAS_PRICE⟩]
    ∧ (task_deployContract (deployThrowingClient e h ⟨st, bn, ca⟩ allow)).2
        = Except.error e
    ∧ (sendSubtask (sendThrowingClient e h ⟨st, bn, ca⟩ allow) dest data).2
        = Except.error e := by
  refine ⟨snd_task_deployContract h ⟨st, bn, ca⟩ allow,
    snd_sendSubtask h ⟨st, bn, ca⟩ allow dest data,
    snd_task_createToken h ⟨st, bn, ca⟩ allow r1 r2 nowMs,
    snd_task_mintNft h ⟨st, bn, ca⟩ allow,
    snd_task_claimAndBurn h ⟨st, bn, ca⟩ allow,
    snd_task_swapTokens h acct ⟨st, bn, ca⟩ allow swapNow,
    snd_task_createMintpadNFT h ⟨st, bn, ca⟩ allow newSalt,
    ?_, ?_, ?_, ?_⟩
  · cases st <;> rfl
  · cases st <;> rfl
  · rfl
  · rfl

/-- C9: in task_swapTokens an approval transaction — approving the swap
router for the maximum uint256 amount — is submitted exactly when the
allowance read returns a value strictly below the 1-token swap amount
10^18 wei; otherwise the task proceeds directly to the swap with no
approval submission: the submission list is approve-then-swap in the
low-allowance case and the swap alone otherwise. -/
theorem claim_swap_approval_iff (h acct : String) (st : TxStatus)
    (bn : Nat) (ca : String) (allow swapNow : Nat) :
    (Ev.write ⟨HLS_TOKEN_ADDRESS, "approve",
        [AbiArg.addr SWAP_ROUTER_ADDRESS, AbiArg.num maxUint256],
        some HIGH_GAS_PRICE⟩
      ∈ (task_swapTokens (mkClient h ⟨st, bn, ca⟩ allow) acct swapNow).1
      ↔ allow < parseUnits 1 18)
    ∧ submitEvs (task_swapTokens (mkClient h ⟨st, bn, ca⟩ allow) acct swapNow).1
        = (if allow < parseUnits 1 18
            then
              [Ev.write ⟨HLS_TOKEN_ADDRESS, "approve",
                [AbiArg.addr SWAP_ROUTER_ADDRESS, AbiArg.num maxUint256],
                some HIGH_GAS_PRICE⟩,
              Ev.write ⟨SWAP_ROUTER_ADDRESS, "exactInputSingle",
                [AbiArg.swapTuple HLS_TOKEN_ADDRESS WETH_TOKEN_ADDRESS 3000
                  acct (swapNow / 1000 + 600) (parseUnits 1 18) 0 0],
                some HIGH_GAS_PRICE⟩]
            else
              [Ev.write ⟨SWAP_ROUTER_ADDRESS, "exactInputSingle",
                [AbiArg.swapTuple HLS_TOKEN_ADDRESS WETH_TOKEN_ADDRESS 3000
                  acct (swapNow / 1000 + 600) (parseUnits 1 18) 0 0],
                some HIGH_GAS_PRICE⟩]) := by
  by_cases hlt : allow < parseUnits 1 18 <;> cases st <;>
    refine ⟨?_, ?_⟩ <;>
      simp [task_swapTokens, hlt, TaskM.bind, emit, Client.callRead,
        Client.callWrite, Client.callWait, mkClient, Bind.bind, Pure.pure,
        TaskM.pure, submitEvs, isSubmitCall, HLS_TOKEN_ADDRESS,
        SWAP_ROUTER_ADDRESS]

/-! ## Mintpad calldata lemmas -/

theorem toList_strAppend (a b : String) :
    (a ++ b).toList = a.toList ++ b.toList := String.data_append a b

theorem toList_jsSubstring (s : String) (a b : Nat) :
    (jsSubstring s a b).toList = (s.toList.take b).drop a :=
  List.toList_asString _

set_option maxRecDepth 20000 in
theorem saltStartIndex_eq : saltStartIndex = 114 := by decide

theorem saltEndIndex_eq : saltEndIndex = 178 := by
  rw [saltEndIndex, saltStartIndex_eq]; decide

set_option maxRecDepth 20000 in
theorem template_toList_length : TEMPLATE_DATA.toList.length = 1483 := by decide

theorem mintpadData_toList (salt : String) :
    (mintpadData salt).toList
      = TEMPLATE_DATA.toList.take saltStartIndex.toNat
        ++ (salt.toList ++ TEMPLATE_DATA.toList.drop saltEndIndex.toNat) := by
  rw [mintpadData, toList_strAppend, toList_strAppend, toList_jsSubstring,
    toList_jsSubstring, List.drop_zero, List.append_assoc]
  have hLen : TEMPLATE_DATA.toList.take TEMPLATE_DATA.length
      = TEMPLATE_DATA.toList := List.take_length ..
  rw [hLen]

/-- C10: for every 64-character salt (the hex encoding of 32 random bytes
always has 64 characters), the calldata task 6 constructs has exactly the
template's length and agrees with the template everywhere outside the
64-character window that starts immediately after the first occurrence of
the hardcoded sender address (saltStartIndex = indexOf result 74 plus the
40-character address = 114), where it carries the fresh salt instead. -/
theorem claim_mintpad_salt_replacement (salt : String)
    (hlen : salt.length = 64) :
    saltStartIndex.toNat = 114
    ∧ saltEndIndex.toNat = 178
    ∧ (mintpadData salt).length = TEMPLATE_DATA.length
    ∧ (∀ i : Nat, i < saltStartIndex.toNat →
        (mintpadData salt).toList[i]? = TEMPLATE_DATA.toList[i]?)
    ∧ (∀ i : Nat, saltStartIndex.toNat ≤ i → i < saltEndIndex.toNat →
        (mintpadData salt).toList[i]? = salt.toList[i - saltStartIndex.toNat]?)
    ∧ (∀ i : Nat, saltEndIndex.toNat ≤ i →
        (mintpadData salt).toList[i]? = TEMPLATE_DATA.toList[i]?) := by
  have h1 : saltStartIndex.toNat = 114 := by rw [saltStartIndex_eq]; rfl
  have h2 : saltEndIndex.toNat = 178 := by rw [saltEndIndex_eq]; rfl
  have hsl : salt.toList.length = 64 := hlen
  have hT := template_toList_length
  have hA114 : (TEMPLATE_DATA.toList.take 114).length = 114 :=
    List.length_take_of_le (by omega)
  refine ⟨h1, h2, ?_, ?_, ?_, ?_⟩
  · show (mintpadData salt).toList.length = TEMPLATE_DATA.toList.length
    rw [mintpadData_toList, h1, h2, List.length_append, List.length_append,
      hA114, hsl, List.length_drop, hT]
  · intro i hi
    rw [h1] at hi
    rw [mintpadData_toList, h1, h2, List.getElem?_append_left (by omega)]
    exact List.getElem?_take_of_lt hi
  · intro i ha hb
    rw [h1] at ha
    rw [h2] at hb
    rw [mintpadData_toList, h1, h2, List.getElem?_append_right (by omega),
      hA114, List.getElem?_append_left (by omega)]
  · intro i hge
    rw [h2] at hge
    have hidx : 178 + (i - 114 - 64) = i := by omega
    rw [mintpadData_toList, h1, h2, List.getElem?_append_right (by omega),
      hA114, List.getElem?_append_right (by omega), hsl, List.getElem?_drop,
      hidx]

set_option maxRecDepth 20000 in
/-- Witness for C10 at a concrete 64-character salt. -/
theorem claim_mintpad_salt_replacement_witness :
    ("0123456789abcdef0123456789abcdef0123456789abcdef0123456789abcdef"
        : String).length = 64
    ∧ (mintpadData
          "0123456789abcdef0123456789abcdef0123456789abcdef0123456789abcdef").length
        = TEMPLATE_DATA.length :=
  ⟨by decide,
   (claim_mintpad_salt_replacement _ (by decide)).2.2.1⟩
